import Mathlib

set_option maxRecDepth 8000

/-!
Verification development for the helper-analysis scripts of the
ha-entity-declutter repository (src/analyze_helpers.py, src/delete_helpers.py).

The Python code is shallowly embedded: each Lean definition translates the
corresponding Python function or code block; line numbers in the doc comments
refer to the Python source.  Python sets become `Finset String`, Python lists
become `List String`, Python dicts keyed by strings become association lists,
and operations that may raise become `Except`-valued inputs.
-/

/-! ## Reconciler data model (analyze_helpers.py, lines 1292-1357) -/

/-- The category assigned to a helper by the categorisation loop
(analyze_helpers.py lines 1329-1352): the string values
`actively_used`, `dashboard_only`, `orphaned`, `error`. -/
inductive Category where
  | actively_used
  | dashboard_only
  | orphaned
  | error
deriving DecidableEq

/-- The `reference_sources` dict built per helper
(analyze_helpers.py lines 1297-1327). -/
structure RefSources where
  config_files : List String
  templates : List String
  dashboards : List String
  total_references : Nat
deriving DecidableEq

/-- The per-helper entry of `helper_details`
(analyze_helpers.py lines 1338-1353). -/
structure Details where
  domain : String
  state : String
  referenced : Bool
  category : Category
  reference_sources : RefSources
deriving DecidableEq

/-- The intermediate data that `analyze_helpers_async` has computed when the
categorisation loop at line 1292 starts:

* `helpers` — the helper list built at lines 1093-1116 (`list(helpers_set)`);
* `configRefs` — `config_referenced_entities` (lines 1194, 1225, 1240);
* `configFileMap` — `config_entity_file_mapping` (lines 1194, 1228-1247);
* `templateDeps` — `template_dependencies` (lines 1124-1133);
* `integrationRefs` — `integration_referenced_entities` (lines 1138-1147);
* `dashRefs` / `dashFileMap` — `dashboard_referenced_entities` and
  `dashboard_file_mapping` (lines 1178-1189);
* `stateGet` — the `state.get` lookup used at line 1294; a raised exception is
  the `.error` case, a `None` result is `.ok none`. -/
structure AnalysisInput where
  helpers : List String
  configRefs : Finset String
  configFileMap : List (String × List String)
  templateDeps : List (String × Finset String)
  integrationRefs : Finset String
  dashRefs : Finset String
  dashFileMap : List (String × List String)
  stateGet : String → Except Unit (Option String)

/-- Python `s.startswith(pre)`.  (Defined over the character lists by
structural recursion so that the kernel can evaluate it; the library
`String.startsWith` is defined by well-founded recursion and does not
reduce under `decide`.) -/
def strStarts (pre s : String) : Bool := List.isPrefixOf pre.data s.data

/-- Python `c in s` for a single character. -/
def strContainsCh (s : String) (c : Char) : Bool := s.data.contains c

/-- Split a character list on a separator character; the semantics of Python
`s.split(sep)` for a one-character separator. -/
def splitOnCh (sep : Char) : List Char → List (List Char)
  | [] => [[]]
  | c :: cs =>
    if c == sep then [] :: splitOnCh sep cs
    else
      match splitOnCh sep cs with
      | [] => [[c]]
      | h :: t => (c :: h) :: t

/-- Python `s.split('.')`. -/
def pySplitDot (s : String) : List String :=
  (splitOnCh '.' s.data).map (fun cs => String.mk cs)

/-- Python `helper.split('.')[0]` (analyze_helpers.py lines 1339, 1347). -/
def pyDomain (s : String) : String := (pySplitDot s).headD ""

/-- Lookup in an association list modelling a Python dict keyed by strings. -/
def lookupList (k : String) : List (String × List String) → Option (List String)
  | [] => none
  | (k2, v) :: rest => if k2 = k then some v else lookupList k rest

/-- Union of all template dependency sets; the contribution of
`template_referenced_entities` to `all_referenced_entities`
(analyze_helpers.py lines 1154-1160, 1257). -/
def templateUnion (tds : List (String × Finset String)) : Finset String :=
  tds.foldl (fun s td => s ∪ td.2) ∅

/-- `all_referenced_entities` after the updates at lines 1224, 1257, 1261, 1265
of analyze_helpers.py: config-file references, template references,
integration references and dashboard references. -/
def allReferenced (inp : AnalysisInput) : Finset String :=
  inp.configRefs ∪ templateUnion inp.templateDeps ∪ inp.integrationRefs ∪ inp.dashRefs

/-- The `config_files` list of `reference_sources`
(analyze_helpers.py lines 1305-1310): present iff the helper is in
`config_referenced_entities`; filled from `config_entity_file_mapping`, with
the literal `configuration_files` as fallback. -/
def cfgFilesOf (inp : AnalysisInput) (h : String) : List String :=
  if h ∈ inp.configRefs then
    match lookupList h inp.configFileMap with
    | some fs => fs
    | none => ["configuration_files"]
  else []

/-- The `total_references += 1` contribution of the config-file branch
(analyze_helpers.py line 1311). -/
def cfgCountOf (inp : AnalysisInput) (h : String) : Nat :=
  if h ∈ inp.configRefs then 1 else 0

/-- The `templates` list of `reference_sources`
(analyze_helpers.py lines 1314-1318): one entry, and one
`total_references += 1`, per template whose dependency set contains the
helper. -/
def tmplFilesOf (inp : AnalysisInput) (h : String) : List String :=
  (inp.templateDeps.filter (fun td => decide (h ∈ td.2))).map Prod.fst

/-- The `dashboards` list of `reference_sources`
(analyze_helpers.py lines 1321-1326): guarded by
`dashboard_referenced_entities and helper in dashboard_referenced_entities`
(Python truthiness of the set), filled from `dashboard_file_mapping` with the
literal `lovelace_dashboards` as fallback. -/
def dashFilesOf (inp : AnalysisInput) (h : String) : List String :=
  if inp.dashRefs ≠ ∅ ∧ h ∈ inp.dashRefs then
    match lookupList h inp.dashFileMap with
    | some fs => fs
    | none => ["lovelace_dashboards"]
  else []

/-- The `total_references += 1` contribution of the dashboard branch
(analyze_helpers.py line 1327). -/
def dashCountOf (inp : AnalysisInput) (h : String) : Nat :=
  if inp.dashRefs ≠ ∅ ∧ h ∈ inp.dashRefs then 1 else 0

/-- The full `reference_sources` dict of one helper
(analyze_helpers.py lines 1297-1327). -/
def referenceSources (inp : AnalysisInput) (h : String) : RefSources :=
  { config_files := cfgFilesOf inp h
    templates := tmplFilesOf inp h
    dashboards := dashFilesOf inp h
    total_references := cfgCountOf inp h + (tmplFilesOf inp h).length + dashCountOf inp h }

/-- The category decision of analyze_helpers.py lines 1329-1336:
`orphaned` when `total_references == 0`; otherwise `dashboard_only` when the
dashboards list is non-empty and both the config-file and template lists are
empty, else `actively_used`. -/
def categoryFromSources (rs : RefSources) : Category :=
  if rs.total_references > 0 then
    if rs.dashboards ≠ [] ∧ rs.config_files = [] ∧ rs.templates = [] then
      Category.dashboard_only
    else Category.actively_used
  else Category.orphaned

/-- One helper's entry of `helper_details`
(analyze_helpers.py lines 1292-1353).  When `state.get` raises, the `except`
branch (lines 1345-1353) records state `error`, category `error` and an empty
`reference_sources`; otherwise the `try` branch records the computed category
and sources. -/
def detailsOf (inp : AnalysisInput) (h : String) : Details :=
  match inp.stateGet h with
  | Except.error _ =>
    { domain := pyDomain h
      state := "error"
      referenced := decide (h ∈ allReferenced inp)
      category := Category.error
      reference_sources := ⟨[], [], [], 0⟩ }
  | Except.ok st =>
    let rs := referenceSources inp h
    { domain := pyDomain h
      state := match st with | some s => s | none => "unavailable"
      referenced := decide (h ∈ allReferenced inp)
      category := categoryFromSources rs
      reference_sources := rs }

/-- The category assigned to one helper by the run. -/
def categoryOf (inp : AnalysisInput) (h : String) : Category :=
  (detailsOf inp h).category

/-- The `helper_details` mapping (analyze_helpers.py lines 1289-1353),
as an association list over the helper list. -/
def helperDetails (inp : AnalysisInput) : List (String × Details) :=
  inp.helpers.map (fun h => (h, detailsOf inp h))

/-- The per-category helper lists
(`actively_used_helpers`, `dashboard_only_helpers`, `truly_orphaned_helpers`,
analyze_helpers.py lines 1334, 1356-1357), generalised to all four
categories: the keys of `helper_details` whose entry carries the given
category. -/
def categoryList (inp : AnalysisInput) (c : Category) : List String :=
  ((helperDetails inp).filter (fun p => decide (p.2.category = c))).map Prod.fst

/-! ## Regex pattern matching primitives

The extractors of analyze_helpers.py are batteries of `re.findall` /
`re.finditer` calls with `re.IGNORECASE`.  Each Python pattern is modelled by
a deterministic matcher over `List Char` with Python's non-overlapping
left-to-right scan semantics: at each position the pattern is attempted; on
success the scan resumes after the match, otherwise it advances one
character.  Character classes are modelled over ASCII (`[a-z]` with
IGNORECASE is any letter, `\w` is letter/digit/underscore, `\s` is Python's
whitespace class, `.` is any character except newline). -/

/-- Single-quote character (written via its code so the file avoids a bare
apostrophe). -/
def sqCh : Char := Char.ofNat 39

/-- Double-quote character. -/
def dqCh : Char := Char.ofNat 34

/-- The class `[a-z0-9_]` under IGNORECASE, i.e. a regex word character. -/
def isWordCh (c : Char) : Bool := c.isAlpha || c.isDigit || c == '_'

/-- The class `[a-z_]` under IGNORECASE. -/
def isAlphaUnd (c : Char) : Bool := c.isAlpha || c == '_'

/-- Python's `\s` class (ASCII part). -/
def isWsCh (c : Char) : Bool :=
  c == ' ' || c == '\t' || c == '\n' || c == '\r' || c == Char.ofNat 11 || c == Char.ofNat 12

/-- The class `['\x22]`: either quote character. -/
def isQuoteCh (c : Char) : Bool := c == sqCh || c == dqCh

/-- Maximal run of characters satisfying `p` (greedy `p*`). -/
def spanCh (p : Char → Bool) : List Char → List Char × List Char
  | [] => ([], [])
  | c :: cs =>
    if p c then
      let r := spanCh p cs
      (c :: r.1, r.2)
    else ([], c :: cs)

/-- Case-insensitive literal match; returns the consumed original characters
and the rest. -/
def litCI : List Char → List Char → Option (List Char × List Char)
  | [], s => some ([], s)
  | _ :: _, [] => none
  | p :: ps, c :: cs =>
    if p.toLower == c.toLower then
      match litCI ps cs with
      | some (o, r) => some (c :: o, r)
      | none => none
    else none

/-- Result of one match attempt: the captured group, the last character the
match consumed (needed for a following `\b` test), and the rest of the
input. -/
abbrev MRes := Option (List Char × Char × List Char)

/-- Non-overlapping left-to-right scan (the semantics of `re.findall`):
`prev` is the character before the current position, used by patterns with a
leading `\b`.  Fuel is the input length; every successful match consumes at
least one character. -/
def scanAux (t : Option Char → List Char → MRes) :
    Nat → Option Char → List Char → List (List Char)
  | 0, _, _ => []
  | _ + 1, _, [] => []
  | n + 1, prev, c :: cs =>
    match t prev (c :: cs) with
    | some (cap, lastc, rest) => cap :: scanAux t n (some lastc) rest
    | none => scanAux t n (some c) cs

/-- All captures of one pattern over a string, in scan order. -/
def scanAll (t : Option Char → List Char → MRes) (s : String) : List String :=
  (scanAux t s.data.length none s.data).map (fun cs => String.mk cs)

/-! ## Patterns of `extract_template_dependencies`
(analyze_helpers.py lines 497-547; the identical inner copy is at
lines 187-224) -/

/-- Pattern `states\(['\x22]([a-z0-9_]+\.[a-z0-9_]+)['\x22]\)`. -/
def tryStatesQQ (_ : Option Char) (s : List Char) : MRes :=
  match litCI "states(".data s with
  | none => none
  | some (_, r1) =>
    match r1 with
    | q1 :: r2 =>
      if isQuoteCh q1 then
        let w1 := spanCh isWordCh r2
        if w1.1 = [] then none else
        match w1.2 with
        | '.' :: r4 =>
          let w2 := spanCh isWordCh r4
          if w2.1 = [] then none else
          match w2.2 with
          | q2 :: ')' :: r6 =>
            if isQuoteCh q2 then some (w1.1 ++ '.' :: w2.1, ')', r6) else none
          | _ => none
        | _ => none
      else none
    | [] => none

/-- Patterns `states\('([^']+)'\)` and `states\(\x22([^\x22]+)\x22\)`,
parameterised by the quote character. -/
def tryStatesQ (q : Char) (_ : Option Char) (s : List Char) : MRes :=
  match litCI "states(".data s with
  | none => none
  | some (_, r1) =>
    match r1 with
    | c :: r2 =>
      if c == q then
        let body := spanCh (fun d => d != q) r2
        if body.1 = [] then none else
        match body.2 with
        | c2 :: ')' :: r4 => if c2 == q then some (body.1, ')', r4) else none
        | _ => none
      else none
    | [] => none

/-- Patterns `is_state\(['\x22](id)['\x22]` and `state_attr\(['\x22](id)['\x22]`
(no closing parenthesis in the pattern), parameterised by the function
name. -/
def tryFuncQ (name : String) (_ : Option Char) (s : List Char) : MRes :=
  match litCI name.data s with
  | none => none
  | some (_, r1) =>
    match r1 with
    | q1 :: r2 =>
      if isQuoteCh q1 then
        let w1 := spanCh isWordCh r2
        if w1.1 = [] then none else
        match w1.2 with
        | '.' :: r4 =>
          let w2 := spanCh isWordCh r4
          if w2.1 = [] then none else
          match w2.2 with
          | q2 :: r6 => if isQuoteCh q2 then some (w1.1 ++ '.' :: w2.1, q2, r6) else none
          | [] => none
        | _ => none
      else none
    | [] => none

/-- Pattern `\b(input_[a-z_]+\.[a-z0-9_]+)\b`.  The trailing `\b` holds
automatically because the object run is maximal. -/
def tryInputBare (prev : Option Char) (s : List Char) : MRes :=
  let bOk := match prev with | none => true | some c => !(isWordCh c)
  if bOk then
    match litCI "input_".data s with
    | none => none
    | some (o, r1) =>
      let w1 := spanCh isAlphaUnd r1
      if w1.1 = [] then none else
      match w1.2 with
      | '.' :: r3 =>
        let w2 := spanCh isWordCh r3
        if w2.1 = [] then none else
        some (o ++ w1.1 ++ '.' :: w2.1, w2.1.getLastD '.', w2.2)
      | _ => none
  else none

/-- Patterns `\b(dom\.[a-z0-9_]+)\b` for a fixed domain literal `dom`
(binary_sensor, sensor, timer, counter, schedule). -/
def tryDomBare (dom : String) (prev : Option Char) (s : List Char) : MRes :=
  let bOk := match prev with | none => true | some c => !(isWordCh c)
  if bOk then
    match litCI (dom ++ ".").data s with
    | none => none
    | some (o, r1) =>
      let w := spanCh isWordCh r1
      if w.1 = [] then none else some (o ++ w.1, w.1.getLastD '.', w.2)
  else none

/-- The helper-domain allow-list used by `extract_template_dependencies`
(lines 533), `extract_dashboard_entities` (line 762) and the inner template
scanner (line 215). -/
def helper_domains : List String :=
  ["binary_sensor", "sensor", "input_boolean", "input_datetime", "input_number",
   "input_select", "input_text", "timer", "counter", "schedule"]

/-- The per-match filter `entity_id.startswith(domain + '.')` over the
allow-list (lines 533-539). -/
def isHelperDomId (e : String) : Bool := helper_domains.any (fun d => strStarts (d ++ ".") e)

/-- All captures of the eleven patterns of `extract_template_dependencies`
(lines 505-517), in pattern order. -/
def tmplPatternMatches (t : String) : List String :=
  scanAll tryStatesQQ t
    ++ scanAll (tryStatesQ sqCh) t
    ++ scanAll (tryStatesQ dqCh) t
    ++ scanAll (tryFuncQ "is_state(") t
    ++ scanAll (tryFuncQ "state_attr(") t
    ++ scanAll tryInputBare t
    ++ scanAll (tryDomBare "binary_sensor") t
    ++ scanAll (tryDomBare "sensor") t
    ++ scanAll (tryDomBare "timer") t
    ++ scanAll (tryDomBare "counter") t
    ++ scanAll (tryDomBare "schedule") t

/-- `extract_template_dependencies` (analyze_helpers.py lines 497-547) as a
duplicate-free list in discovery order: empty input gives the empty result;
otherwise every pattern match that passes the helper-domain filter enters the
result set. -/
def extractTmplDepList (t : String) : List String :=
  if t = "" then []
  else ((tmplPatternMatches t).filter isHelperDomId).dedup

/-- `extract_template_dependencies` as the set it computes. -/
def extract_template_dependencies (t : String) : Finset String :=
  (extractTmplDepList t).toFinset

/-! ## Patterns of `extract_entities_from_template_string`
(analyze_helpers.py lines 773-806) -/

/-- One alternative of the template-function pattern
`(?:states|is_state|...)\s*\(\s*['\x22]([a-z_]+\.[a-z0-9_]+)['\x22]`. -/
def tryTmplFunc1 (name : String) (s : List Char) : MRes :=
  match litCI name.data s with
  | none => none
  | some (_, r1) =>
    let ws1 := spanCh isWsCh r1
    match ws1.2 with
    | '(' :: r3 =>
      let ws2 := spanCh isWsCh r3
      match ws2.2 with
      | q1 :: r5 =>
        if isQuoteCh q1 then
          let w1 := spanCh isAlphaUnd r5
          if w1.1 = [] then none else
          match w1.2 with
          | '.' :: r7 =>
            let w2 := spanCh isWordCh r7
            if w2.1 = [] then none else
            match w2.2 with
            | q2 :: r9 => if isQuoteCh q2 then some (w1.1 ++ '.' :: w2.1, q2, r9) else none
            | [] => none
          | _ => none
        else none
      | [] => none
    | _ => none

/-- The full alternation of template-function names, tried in the pattern's
order (line 783). -/
def tryTmplFuncs (_ : Option Char) (s : List Char) : MRes :=
  tryTmplFunc1 "states" s <|> tryTmplFunc1 "is_state" s <|> tryTmplFunc1 "state_attr" s
    <|> tryTmplFunc1 "is_state_attr" s <|> tryTmplFunc1 "has_value" s
    <|> tryTmplFunc1 "state_translated" s <|> tryTmplFunc1 "device_id" s
    <|> tryTmplFunc1 "device_name" s <|> tryTmplFunc1 "area_id" s
    <|> tryTmplFunc1 "area_name" s

/-- Pattern `states\.([a-z_]+)\.([a-z0-9_]+)(?:\.state|\.attributes)`
(line 785); the two groups are joined with a dot by the caller
(lines 795-798). -/
def tryStatesDot (_ : Option Char) (s : List Char) : MRes :=
  match litCI "states.".data s with
  | none => none
  | some (_, r1) =>
    let w1 := spanCh isAlphaUnd r1
    if w1.1 = [] then none else
    match w1.2 with
    | '.' :: r3 =>
      let w2 := spanCh isWordCh r3
      if w2.1 = [] then none else
      match litCI ".state".data w2.2 with
      | some (_, r5) => some (w1.1 ++ '.' :: w2.1, 'e', r5)
      | none =>
        match litCI ".attributes".data w2.2 with
        | some (_, r5) => some (w1.1 ++ '.' :: w2.1, 's', r5)
        | none => none
    | _ => none

/-- Pattern `['\x22]([a-z_]+\.[a-z0-9_]+)['\x22]` (line 787; also the last
dashboard pattern, line 753). -/
def tryQuotedId (_ : Option Char) (s : List Char) : MRes :=
  match s with
  | q1 :: r1 =>
    if isQuoteCh q1 then
      let w1 := spanCh isAlphaUnd r1
      if w1.1 = [] then none else
      match w1.2 with
      | '.' :: r3 =>
        let w2 := spanCh isWordCh r3
        if w2.1 = [] then none else
        match w2.2 with
        | q2 :: r5 => if isQuoteCh q2 then some (w1.1 ++ '.' :: w2.1, q2, r5) else none
        | [] => none
      | _ => none
    else none
  | [] => none

/-- Pattern `\b([a-z_]+\.[a-z0-9_]+)\b` (line 789). -/
def tryBareId (prev : Option Char) (s : List Char) : MRes :=
  let bOk := match prev with | none => true | some c => !(isWordCh c)
  if bOk then
    let w1 := spanCh isAlphaUnd s
    if w1.1 = [] then none else
    match w1.2 with
    | '.' :: r2 =>
      let w2 := spanCh isWordCh r2
      if w2.1 = [] then none else some (w1.1 ++ '.' :: w2.1, w2.1.getLastD '.', w2.2)
    | _ => none
  else none

/-- The basic validation of single-group matches
(`'.' in entity_id and len(entity_id.split('.')) == 2`, line 803). -/
def pyValidDotted (e : String) : Bool :=
  strContainsCh e '.' && (pySplitDot e).length == 2

/-- `extract_entities_from_template_string` (analyze_helpers.py lines
773-806) as a duplicate-free list in discovery order.  Note: there is NO
helper-domain allow-list filter in this function; the only check on
single-group captures is `pyValidDotted`, and the two-group pattern's result
is added unconditionally. -/
def extractTmplStrList (t : String) : List String :=
  ((scanAll tryTmplFuncs t).filter pyValidDotted
    ++ scanAll tryStatesDot t
    ++ (scanAll tryQuotedId t).filter pyValidDotted
    ++ (scanAll tryBareId t).filter pyValidDotted).dedup

/-- `extract_entities_from_template_string` as the set it computes. -/
def extract_entities_from_template_string (t : String) : Finset String :=
  (extractTmplStrList t).toFinset

/-! ## Patterns of `extract_dashboard_entities`
(analyze_helpers.py lines 730-771) -/

/-- Shared suffix `['\x22]?([a-z0-9_]+\.[a-z0-9_]+)['\x22]?`: optional
leading quote, captured id, optional trailing quote. -/
def capIdOptQ (s : List Char) : MRes :=
  let s1 := match s with
    | c :: cs => if isQuoteCh c then cs else c :: cs
    | [] => []
  let w1 := spanCh isWordCh s1
  if w1.1 = [] then none else
  match w1.2 with
  | '.' :: r2 =>
    let w2 := spanCh isWordCh r2
    if w2.1 = [] then none else
    match w2.2 with
    | c :: r3 =>
      if isQuoteCh c then some (w1.1 ++ '.' :: w2.1, c, r3)
      else some (w1.1 ++ '.' :: w2.1, w2.1.getLastD '.', c :: r3)
    | [] => some (w1.1 ++ '.' :: w2.1, w2.1.getLastD '.', [])
  | _ => none

/-- Patterns `key\s*['\x22]?(id)['\x22]?` for a literal key such as
`entity:`, `sensor:`, `binary_sensor:` (lines 739, 745, 746). -/
def tryKeyColon (key : String) (_ : Option Char) (s : List Char) : MRes :=
  match litCI key.data s with
  | none => none
  | some (_, r1) =>
    let ws := spanCh isWsCh r1
    capIdOptQ ws.2

/-- Pattern `-\s*entity:\s*['\x22]?(id)['\x22]?` (line 741). -/
def tryDashEntity (_ : Option Char) (s : List Char) : MRes :=
  match s with
  | '-' :: r1 =>
    let ws := spanCh isWsCh r1
    match litCI "entity:".data ws.2 with
    | none => none
    | some (_, r3) =>
      let ws2 := spanCh isWsCh r3
      capIdOptQ ws2.2
  | _ => none

/-- Pattern `-\s*['\x22]?(id)['\x22]?` (line 742). -/
def tryDashItem (_ : Option Char) (s : List Char) : MRes :=
  match s with
  | '-' :: r1 =>
    let ws := spanCh isWsCh r1
    capIdOptQ ws.2
  | _ => none

/-- Patterns `'(id)'` and `\x22(id)\x22` with the same quote on both sides
and word-class domain (lines 743-744). -/
def tryQuotedIdEx (q : Char) (_ : Option Char) (s : List Char) : MRes :=
  match s with
  | c :: r1 =>
    if c == q then
      let w1 := spanCh isWordCh r1
      if w1.1 = [] then none else
      match w1.2 with
      | '.' :: r3 =>
        let w2 := spanCh isWordCh r3
        if w2.1 = [] then none else
        match w2.2 with
        | c2 :: r5 => if c2 == q then some (w1.1 ++ '.' :: w2.1, q, r5) else none
        | [] => none
      | _ => none
    else none
  | [] => none

/-- Pattern `input_[a-z_]+:\s*['\x22]?(id)['\x22]?` (line 747). -/
def tryInputKey (_ : Option Char) (s : List Char) : MRes :=
  match litCI "input_".data s with
  | none => none
  | some (_, r1) =>
    let w := spanCh isAlphaUnd r1
    if w.1 = [] then none else
    match w.2 with
    | ':' :: r3 =>
      let ws := spanCh isWsCh r3
      capIdOptQ ws.2
    | _ => none

/-- Lazy gap `.*?` followed by a continuation: try the continuation at each
position, left to right; gap characters may not be newlines (`.` without
DOTALL). -/
def lazySeek (cont : List Char → MRes) : Nat → List Char → MRes
  | 0, s => cont s
  | n + 1, s =>
    match cont s with
    | some r => some r
    | none =>
      match s with
      | [] => none
      | c :: cs => if c == '\n' then none else lazySeek cont n cs

/-- The quoted-id tail `['\x22](id)['\x22]` with word-class domain, used by
the lazy dashboard patterns (lines 748-751). -/
def quotedIdCore (s : List Char) : MRes :=
  match s with
  | q1 :: r1 =>
    if isQuoteCh q1 then
      let w1 := spanCh isWordCh r1
      if w1.1 = [] then none else
      match w1.2 with
      | '.' :: r2 =>
        let w2 := spanCh isWordCh r2
        if w2.1 = [] then none else
        match w2.2 with
        | q2 :: r3 => if isQuoteCh q2 then some (w1.1 ++ '.' :: w2.1, q2, r3) else none
        | [] => none
      | _ => none
    else none
  | [] => none

/-- Patterns `key.*?entity.*?['\x22](id)['\x22]` (lines 748-750). -/
def tryLazyKey (key mid : String) (_ : Option Char) (s : List Char) : MRes :=
  match litCI key.data s with
  | none => none
  | some (_, r1) =>
    lazySeek (fun s2 =>
      match litCI mid.data s2 with
      | none => none
      | some (_, r2) => lazySeek quotedIdCore r2.length r2) r1.length r1

/-- Pattern `action.*?service_data.*?entity_id.*?['\x22](id)['\x22]`
(line 751). -/
def tryLazyKey3 (key mid1 mid2 : String) (_ : Option Char) (s : List Char) : MRes :=
  match litCI key.data s with
  | none => none
  | some (_, r1) =>
    lazySeek (fun s2 =>
      match litCI mid1.data s2 with
      | none => none
      | some (_, r2) =>
        lazySeek (fun s3 =>
          match litCI mid2.data s3 with
          | none => none
          | some (_, r3) => lazySeek quotedIdCore r3.length r3) r2.length r2) r1.length r1

/-- One list item `\s*-\s*['\x22]?(id)['\x22]?` of the entities-list
pattern. -/
def dashItemOnce (s : List Char) : MRes :=
  let ws := spanCh isWsCh s
  match ws.2 with
  | '-' :: r2 =>
    let ws2 := spanCh isWsCh r2
    capIdOptQ ws2.2
  | _ => none

/-- Greedy repetition of list items; `re.findall` returns the capture of the
last iteration of a repeated group. -/
def itemsLoop : Nat → List Char × Char × List Char → List Char × Char × List Char
  | 0, acc => acc
  | n + 1, acc =>
    match dashItemOnce acc.2.2 with
    | some r2 => itemsLoop n r2
    | none => acc

/-- Pattern `entities:\s*\n(?:\s*-\s*['\x22]?(id)['\x22]?)+` (line 740).
`\s*\n` greedily places the literal newline at the last newline of the
whitespace run; the remaining whitespace is re-consumed by the first item's
own `\s*`, so the choice of newline cannot change acceptance. -/
def tryEntitiesList (_ : Option Char) (s : List Char) : MRes :=
  match litCI "entities:".data s with
  | none => none
  | some (_, r1) =>
    let ws := spanCh isWsCh r1
    if ws.1.contains '\n' then
      let tl := (ws.1.reverse.takeWhile (fun c => !(c == '\n'))).reverse
      match dashItemOnce (tl ++ ws.2) with
      | some first => some (itemsLoop first.2.2.length first)
      | none => none
    else none

/-- All captures of the fourteen patterns of `extract_dashboard_entities`
(lines 738-754), in pattern order. -/
def dashPatternMatches (t : String) : List String :=
  scanAll (tryKeyColon "entity:") t
    ++ scanAll tryEntitiesList t
    ++ scanAll tryDashEntity t
    ++ scanAll tryDashItem t
    ++ scanAll (tryQuotedIdEx sqCh) t
    ++ scanAll (tryQuotedIdEx dqCh) t
    ++ scanAll (tryKeyColon "sensor:") t
    ++ scanAll (tryKeyColon "binary_sensor:") t
    ++ scanAll tryInputKey t
    ++ scanAll (tryLazyKey "card_config" "entity") t
    ++ scanAll (tryLazyKey "tap_action" "entity") t
    ++ scanAll (tryLazyKey "hold_action" "entity") t
    ++ scanAll (tryLazyKey3 "action" "service_data" "entity_id") t
    ++ scanAll tryQuotedId t

/-- `extract_dashboard_entities` (analyze_helpers.py lines 730-771) as a
duplicate-free list in discovery order: every pattern match that passes the
helper-domain filter (lines 761-769) enters the result set. -/
def extractDashList (t : String) : List String :=
  if t = "" then []
  else ((dashPatternMatches t).filter isHelperDomId).dedup

/-- `extract_dashboard_entities` as the set it computes. -/
def extract_dashboard_entities (t : String) : Finset String :=
  (extractDashList t).toFinset

/-! ## Entity registry scan (`examine_entity_registry`,
analyze_helpers.py lines 34-101) -/

/-- One record of the persisted entity registry: `entity_id`, `platform`
(default empty string) and `config_entry_id` (absent is `none`). -/
structure RegEntry where
  entity_id : String
  platform : String
  config_entry_id : Option String
deriving DecidableEq

/-- Python truthiness of `config_entry_id`: `None` and the empty string are
falsy. -/
def pyTruthy : Option String → Bool
  | none => false
  | some s => s != ""

/-- `entity_id.startswith(('input_', 'counter.', 'timer.'))`
(analyze_helpers.py line 58).  Note: `variable.` is NOT part of the registry
test. -/
def tradRegId (e : String) : Bool :=
  strStarts "input_" e || strStarts "counter." e || strStarts "timer." e

/-- `sensor.`/`binary_sensor.` prefix test
(analyze_helpers.py lines 70, 90, 310, 1110). -/
def sensorId (e : String) : Bool :=
  strStarts "sensor." e || strStarts "binary_sensor." e

/-- The other helper platforms of analyze_helpers.py line 85. -/
def helperPlatforms : List String :=
  ["integral", "derivative", "history_stats", "trend", "threshold", "utility_meter",
   "group", "combine", "times_of_the_day", "mold_indicator"]

/-- One iteration of the registry loop (analyze_helpers.py lines 51-92),
threading the accumulated `(template_sensors, helper_entities)` pair through
the if/elif chain. -/
def regStep (acc : List String × List String) (e : RegEntry) : List String × List String :=
  if tradRegId e.entity_id then
    if pyTruthy e.config_entry_id then acc
    else (acc.1, acc.2 ++ [e.entity_id])
  else if pyTruthy e.config_entry_id && sensorId e.entity_id
          && !(["template", "statistics"].contains e.platform) then acc
  else if e.platform == "template" then (acc.1 ++ [e.entity_id], acc.2)
  else if e.platform == "statistics" then (acc.1 ++ [e.entity_id], acc.2)
  else if helperPlatforms.contains e.platform then (acc.1 ++ [e.entity_id], acc.2)
  else if !(pyTruthy e.config_entry_id) && sensorId e.entity_id then
    (acc.1 ++ [e.entity_id], acc.2)
  else acc

/-- `examine_entity_registry` (analyze_helpers.py lines 34-101): scans the
registry records and returns `template_sensors + helper_entities`
(line 97). -/
def examine_entity_registry (recs : List RegEntry) : List String :=
  let p := recs.foldl regStep ([], [])
  p.1 ++ p.2

/-! ## Helper universe construction
(analyze_helpers.py lines 1093-1116) -/

/-- `entity_id.startswith('input_') or ... ('counter.') or ... ('timer.') or
... ('variable.')` (analyze_helpers.py lines 1097-1100; same test in
`is_helper_entity`, lines 278-281). -/
def tradLiveId (e : String) : Bool :=
  strStarts "input_" e || strStarts "counter." e || strStarts "timer." e
    || strStarts "variable." e

/-- Addition to a Python set, modelled as a duplicate-free list in insertion
order (the set's iteration order is arbitrary in Python; theorem
`c9_rerun_identical` shows the enumeration order does not matter). -/
def setAdd (s : List String) (e : String) : List String :=
  if e ∈ s then s else s ++ [e]

/-- `helpers_set` followed by `helpers = list(helpers_set)`
(analyze_helpers.py lines 1093-1116): the traditional helpers from the live
snapshot, the registry-derived helpers that still exist, and the legacy
template-sensor detection for remaining sensor/binary_sensor entities
(`entity_id not in helpers_set` is evaluated against the set built so
far). -/
def helpersSet (entity_ids : List String) (registryHelpers : List String)
    (isTmpl : String → Bool) : List String :=
  let s1 := entity_ids.foldl (fun s e => if tradLiveId e then setAdd s e else s) []
  let s2 := registryHelpers.foldl (fun s e => if e ∈ entity_ids then setAdd s e else s) s1
  entity_ids.foldl
    (fun s e => if sensorId e && !(decide (e ∈ s)) && isTmpl e then setAdd s e else s) s2

/-! ## Entity classifier (`is_template_or_helper_entity`,
analyze_helpers.py lines 307-493) -/

/-- Python `key in attrs` (dict key membership). -/
def attrHasKey (attrs : List (String × String)) (k : String) : Bool :=
  (attrs.map Prod.fst).contains k

/-- Python `attrs.get(key)`. -/
def attrGet (attrs : List (String × String)) (k : String) : Option String :=
  (attrs.find? (fun p => p.1 == k)).map Prod.snd

/-- Python truthiness of `attrs.get(key)` (attribute values are modelled as
strings; the empty string is falsy). -/
def attrTruthy (attrs : List (String × String)) (k : String) : Bool :=
  match attrGet attrs k with
  | some v => v != ""
  | none => false

/-- Python `set(attrs.keys())`. -/
def attrKeysFin (attrs : List (String × String)) : Finset String :=
  (attrs.map Prod.fst).toFinset

/-- Python `needle in hay` (substring test). -/
def containsSubAux (nd : List Char) : List Char → Bool
  | [] => nd.isEmpty
  | c :: cs => List.isPrefixOf nd (c :: cs) || containsSubAux nd cs

/-- Python `needle in hay` over strings. -/
def containsSub (hay needle : String) : Bool := containsSubAux needle.data hay.data

/-- Python `s.lower()`. -/
def strLower (s : String) : String := String.mk (s.data.map Char.toLower)

/-- `integration_indicators` (analyze_helpers.py lines 328-334; the identical
list reappears at lines 469-475). -/
def integration_indicators : List String :=
  ["integration_method", "flow_sensor_value", "detectors_flow", "sampling_active_seconds",
   "current_session_start", "last_session_end", "session_stage", "volume_unit",
   "entity_registry_enabled_default", "entity_registry_visible_default", "platform",
   "supported_features", "assumed_state", "should_poll", "state_class", "last_reset",
   "attribution", "source_type", "restored"]

/-- `definitive_integration_indicators` (analyze_helpers.py lines 370-375). -/
def definitive_integration_indicators : List String :=
  ["integration_method", "flow_sensor_value", "detectors_flow", "sampling_active_seconds",
   "current_session_start", "last_session_end", "session_stage", "volume_unit",
   "supported_features", "assumed_state", "should_poll", "state_class", "last_reset",
   "attribution", "unit_of_measurement", "options", "device_id"]

/-- `template_helper_patterns` (analyze_helpers.py lines 352-359). -/
def template_helper_patterns : List (Finset String) :=
  [{"friendly_name", "device_class", "icon"},
   {"friendly_name", "device_class", "icon", "unique_id"},
   {"friendly_name", "device_class"}]

/-- `obvious_integration_patterns` (analyze_helpers.py lines 410-415). -/
def obvious_integration_patterns : List String :=
  ["motion", "person", "vehicle", "pet", "microphone",
   "water_monitor", "watt_monitor", "backup", "mobile_app",
   "fully_kiosk", "reolink", "sonos", "ca_", "sm_g998u1",
   "fire_tablet", "sun_", "day_night_state"]

/-- The body of the inner `except:` handler of the sensor branch
(analyze_helpers.py lines 317-457).  Because of the block's indentation, all
of the attribute-based detection logic (lines 319-457) sits INSIDE the
`except:` of the `state.getattr` call, so it only runs after a lookup
failure, with `attrs = {}`.  It is translated here in full; `some b` models
an early `return b`, `none` means the block falls through. -/
def sensorExceptBlock (eid : String) (attrs : List (String × String)) : Option Bool :=
  let keys := attrKeysFin attrs
  -- lines 326-341: integration indicators force False
  if !attrs.isEmpty && integration_indicators.any (attrHasKey attrs) then some false
  -- lines 343-364: exact template-helper attribute patterns force True
  else if !attrs.isEmpty && template_helper_patterns.any (fun p => decide (keys = p)) then
    some true
  -- lines 366-381: definitive integration indicators force False
  else if !attrs.isEmpty && definitive_integration_indicators.any (attrHasKey attrs) then
    some false
  else
    -- lines 383-425: conservative analysis
    let basic1 : Finset String := {"friendly_name", "device_class", "icon"}
    let complex1 : Finset String :=
      {"unique_id", "supported_features", "restored", "state_class",
       "unit_of_measurement", "last_changed", "last_updated"}
    let hasBasic1 := decide ((keys ∩ basic1) ≠ ∅)
    let hasComplex1 := decide ((keys ∩ complex1) ≠ ∅)
    if hasBasic1 && !hasComplex1 && keys.card ≤ 4 && !(attrTruthy attrs "unique_id")
        && !(obvious_integration_patterns.any (fun p => containsSub (strLower eid) p)) then
      some true
    else
      -- lines 427-432: explicit template platform/integration markers
      let integration := (attrGet attrs "integration").getD ""
      let platf := (attrGet attrs "platform").getD ""
      if integration == "template" || containsSub platf "template" then some true
      else
        -- lines 434-457: minimal-attribute heuristic
        let basic2 : Finset String := {"friendly_name", "device_class", "icon"}
        let hasBasic2 := decide ((keys ∩ basic2) ≠ ∅)
        if hasBasic2 && !(attrTruthy attrs "unique_id")
            && (SDiff.sdiff (SDiff.sdiff keys basic2) {"friendly_name"}).card ≤ 2 then
          some true
        else none

/-- The final block of `is_template_or_helper_entity`
(analyze_helpers.py lines 462-493), which runs for every entity that did not
return earlier: re-reads the attributes; an empty result or an exception
gives False; integration indicators give False; otherwise True exactly when
the key set has at most five keys, all within the basic helper attribute
set. -/
def otherEntityBlock (ga : Except Unit (List (String × String))) : Bool :=
  match ga with
  | Except.error _ => false
  | Except.ok attrs =>
    if attrs.isEmpty then false
    else if integration_indicators.any (attrHasKey attrs) then false
    else
      let keys := attrKeysFin attrs
      let basic : Finset String :=
        {"friendly_name", "device_class", "icon", "unique_id", "entity_category"}
      if keys.card ≤ 5 && decide (keys ⊆ basic) then true
      else false

/-- `is_template_or_helper_entity` (analyze_helpers.py lines 307-493).
`ga` is the result of `state.getattr(entity_id)` (deterministic per entity
within one run; an exception is `.error`, `None` and `{}` are `.ok []`).
For a sensor/binary_sensor entity whose lookup succeeds, the sensor branch
performs no checks at all — its detection logic is inside the inner
`except:` handler — and control falls through to `otherEntityBlock`. -/
def is_template_or_helper_entity (eid : String)
    (ga : Except Unit (List (String × String))) : Bool :=
  let sensorRet : Option Bool :=
    if sensorId eid then
      match ga with
      | Except.ok _ => none
      | Except.error _ => sensorExceptBlock eid []
    else none
  match sensorRet with
  | some b => b
  | none => otherEntityBlock ga

/-! ## Source scanning and run orchestration
(analyze_helpers.py lines 646-728, 874-924, 1055-1290) -/

/-- Python `s.endswith(suf)`. -/
def strEnds (suf s : String) : Bool :=
  List.isPrefixOf suf.data.reverse s.data.reverse

/-- `file.endswith(('.yaml', '.yml'))` (analyze_helpers.py lines 688, 883,
898, 920). -/
def isYamlPath (p : String) : Bool := strEnds ".yaml" p || strEnds ".yml" p

/-- Python `path.split('/')[-1]` / `os.path.basename`
(analyze_helpers.py lines 259, 715, 1228). -/
def basename (p : String) : String :=
  String.mk ((splitOnCh '/' p.data).getLastD [])

/-- The filesystem visible to one run: the readable files as
(path, content) pairs, in directory-listing order. -/
abbrev FileSys := List (String × String)

/-- `os.path.isfile(p)` over the modelled filesystem. -/
def isFilePresent (fs : FileSys) (p : String) : Bool := fs.any (fun f => f.1 == p)

/-- Reading a file; `none` models an unreadable or absent file (the code
skips the source in that case). -/
def readFs (fs : FileSys) (p : String) : Option String :=
  (fs.find? (fun f => f.1 == p)).map Prod.snd

/-- Direct membership of a directory listing: the path is under `dir` with
no further slash (`os.listdir` does not recurse). -/
def inDirDirect (dir p : String) : Bool :=
  strStarts dir p && !((p.data.drop dir.data.length).contains '/')

/-- `get_config_files` (analyze_helpers.py lines 874-924): all YAML files of
the config root (non-recursive listing), then the packages subtree and the
blueprints subtree (recursive walks). -/
def get_config_files (fs : FileSys) : List String :=
  ((fs.filter (fun f => inDirDirect "/config/" f.1 && isYamlPath f.1)).map Prod.fst)
    ++ ((fs.filter (fun f => strStarts "/config/packages/" f.1 && isYamlPath f.1)).map
        Prod.fst)
    ++ ((fs.filter (fun f => strStarts "/config/blueprints/" f.1 && isYamlPath f.1)).map
        Prod.fst)

/-- `lovelace_files` (analyze_helpers.py lines 1198-1202): YAML dashboard
paths that are ALSO appended to the config-file scan list. -/
def lovelace_files : List String :=
  ["/config/ui-lovelace.yaml", "/config/lovelace.yaml", "/config/dashboards/lovelace.yaml"]

/-- `yaml_dashboard_files` (analyze_helpers.py lines 669-674). -/
def yaml_dashboard_files : List String :=
  ["/config/ui-lovelace.yaml", "/config/lovelace.yaml", "/config/dashboards/main.yaml",
   "/config/dashboards/lovelace.yaml"]

/-- The dashboard file list of `analyze_dashboard_dependencies`
(analyze_helpers.py lines 652-694): `.storage` files whose name starts with
`lovelace`, the fixed YAML dashboard paths that exist, and the YAML files of
the dashboard directories (each added only if not already listed). -/
def dashboardFilesOf (fs : FileSys) : List String :=
  let storage := (fs.filter (fun f =>
      inDirDirect "/config/.storage/" f.1 && strStarts "lovelace" (basename f.1))).map
    Prod.fst
  let d1 := storage ++ yaml_dashboard_files.filter (isFilePresent fs)
  ["/config/dashboards/", "/config/lovelace/"].foldl (fun acc d =>
      ((fs.filter (fun f => inDirDirect d f.1 && isYamlPath f.1)).map Prod.fst).foldl
        (fun acc2 p => if p ∈ acc2 then acc2 else acc2 ++ [p]) acc) d1

/-- Appending a filename to an entity's list in
`config_entity_file_mapping`, skipping an already-recorded filename
(analyze_helpers.py lines 1229-1233, 1243-1247). -/
def mapAppend (m : List (String × List String)) (e fname : String) :
    List (String × List String) :=
  match m with
  | [] => [(e, [fname])]
  | (k, v) :: rest =>
    if k = e then (k, if fname ∈ v then v else v ++ [fname]) :: rest
    else (k, v) :: mapAppend rest e fname

/-- Appending a filename to an entity's list in `dashboard_file_mapping`,
without the duplicate check (analyze_helpers.py lines 716-719). -/
def mapAppendAlways (m : List (String × List String)) (e fname : String) :
    List (String × List String) :=
  match m with
  | [] => [(e, [fname])]
  | (k, v) :: rest =>
    if k = e then (k, v ++ [fname]) :: rest
    else (k, v) :: mapAppendAlways rest e fname

/-- The config-scan accumulators `config_referenced_entities` and
`config_entity_file_mapping`. -/
structure CfgScan where
  cfgRefs : Finset String
  fileMap : List (String × List String)

/-- Processing of one config file (analyze_helpers.py lines 1222-1247):
`analyze_yaml_content`'s entities (the `ayc` parameter, see `runInput`) are
added with the file name recorded, then every helper whose id occurs as a
substring of the raw content is added as a direct match. -/
def scanConfigFile (helpers : List String) (ayc : String → List String)
    (acc : CfgScan) (p content : String) : CfgScan :=
  let ents := ayc content
  let fname := basename p
  let acc1 : CfgScan :=
    { cfgRefs := acc.cfgRefs ∪ ents.toFinset
      fileMap := ents.foldl (fun m e => mapAppend m e fname) acc.fileMap }
  helpers.foldl (fun a h =>
      if containsSub content h then
        { cfgRefs := insert h a.cfgRefs, fileMap := mapAppend a.fileMap h fname }
      else a) acc1

/-- Processing of one dashboard file (analyze_helpers.py lines 697-725):
when the extraction is non-empty, its entities join
`dashboard_referenced_entities` and each records the dashboard's file
name. -/
def scanDashFile (acc : Finset String × List (String × List String)) (p content : String) :
    Finset String × List (String × List String) :=
  let ents := extractDashList content
  if ents = [] then acc
  else (acc.1 ∪ ents.toFinset, ents.foldl (fun m e => mapAppendAlways m e (basename p)) acc.2)

/-- `analyze_template_dependencies` (analyze_helpers.py lines 178-268):
UI templates (config entries with template domain: title and `options.state`
text) whose state text yields dependencies, then every config file whose
content yields dependencies. -/
def templateDepsOf (fs : FileSys) (uiT : List (String × String)) :
    List (String × Finset String) :=
  let ui := uiT.filterMap (fun tt =>
    if tt.2 ≠ "" then
      let deps := extract_template_dependencies tt.2
      if deps ≠ ∅ then some ("UI Template: " ++ tt.1, deps) else none
    else none)
  let files := (get_config_files fs).filterMap (fun p =>
    match readFs fs p with
    | none => none
    | some content =>
      let deps := extract_template_dependencies content
      if deps ≠ ∅ then some ("File: " ++ basename p, deps) else none)
  ui ++ files

/-- The collaborator-provided inputs of one full run of
`analyze_helpers_async`: the filesystem, the live entity snapshot, the
registry records, the template-domain config entries (title, state text),
the integration-config reference set (output of
`analyze_integration_config_entries`, which walks arbitrary JSON), and the
per-entity attribute/state lookups. -/
structure RunEnv where
  fs : FileSys
  entity_ids : List String
  registry : List RegEntry
  uiTemplates : List (String × String)
  integrationRefs : Finset String
  getattr : String → Except Unit (List (String × String))
  stateGet : String → Except Unit (Option String)

/-- The full orchestration of `analyze_helpers_async` up to the
categorisation loop (analyze_helpers.py lines 1055-1290), producing the
`AnalysisInput` the reconciler consumes.  The `ayc` parameter stands for
`analyze_yaml_content` (lines 808-872), whose YAML parsing
(`yaml.safe_load`) is outside the embedding; every theorem using `runInput`
either holds for all `ayc` or instantiates it with `extractTmplStrList`, the
string extractor `analyze_yaml_content` itself delegates to.  The config
scan covers `get_config_files()` plus the existing `lovelace_files`
(lines 1196-1205); a file that cannot be read, or whose content is empty, is
skipped (lines 1211-1222). -/
def runInput (ayc : String → List String) (env : RunEnv) : AnalysisInput :=
  let regOut := examine_entity_registry env.registry
  let helpers := helpersSet env.entity_ids regOut
    (fun e => is_template_or_helper_entity e (env.getattr e))
  let tdeps := templateDepsOf env.fs env.uiTemplates
  let cfgPaths := get_config_files env.fs ++ lovelace_files.filter (isFilePresent env.fs)
  let cfg := cfgPaths.foldl (fun acc p =>
      match readFs env.fs p with
      | none => acc
      | some content => if content = "" then acc else scanConfigFile helpers ayc acc p content)
    { cfgRefs := ∅, fileMap := [] }
  let dash := (dashboardFilesOf env.fs).foldl (fun acc p =>
      match readFs env.fs p with
      | none => acc
      | some content => scanDashFile acc p content)
    ((∅ : Finset String), ([] : List (String × List String)))
  { helpers := helpers
    configRefs := cfg.cfgRefs
    configFileMap := cfg.fileMap
    templateDeps := tdeps
    integrationRefs := env.integrationRefs
    dashRefs := dash.1
    dashFileMap := dash.2
    stateGet := env.stateGet }

/-- The dashboard content of the C2 counterexample: a YAML dashboard card
referencing one helper. -/
def c2Content : String := "entity: input_boolean.test_dash\n"

/-- The C2 counterexample environment: the ONLY source artifact is the YAML
dashboard file `/config/ui-lovelace.yaml`; the helper it references is the
only live entity; no registry records, UI templates or integration
references; lookups succeed. -/
def c2Env : RunEnv :=
  { fs := [("/config/ui-lovelace.yaml", c2Content)]
    entity_ids := ["input_boolean.test_dash"]
    registry := []
    uiTemplates := []
    integrationRefs := ∅
    getattr := fun _ => Except.ok []
    stateGet := fun _ => Except.ok (some "off") }

/-! ## Deletion-list parser
(delete_helpers.py lines 62-80 and the identical copy at lines 302-320) -/

/-- Python `s.strip()` (ASCII whitespace). -/
def pyStrip (s : String) : String :=
  String.mk (((s.data.dropWhile isWsCh).reverse.dropWhile isWsCh).reverse)

/-- Python `c.isalpha()` (ASCII letters; the inputs here are entity ids). -/
def pyIsAlphaCh (c : Char) : Bool := c.isAlpha

/-- Python `c.isalnum()` (ASCII letters and digits). -/
def pyIsAlnumCh (c : Char) : Bool := c.isAlpha || c.isDigit

/-- Python `s.isalpha()`: non-empty and every character alphabetic. -/
def pyStrIsAlpha (s : String) : Bool := !s.data.isEmpty && s.data.all pyIsAlphaCh

/-- `line.split('#')[0].split()[0].strip()` (delete_helpers.py line 70):
the text before the first `#`, then its first whitespace-delimited token.
(The caller only reaches this on a stripped, non-empty, non-comment line, so
the token is well defined.) -/
def pyFirstTok (l : String) : String :=
  pyStrip (String.mk
    (((l.data.takeWhile (fun c => c != '#')).dropWhile isWsCh).takeWhile
      (fun c => !(isWsCh c))))

/-- Processing of a single line of the orphaned-helpers file
(delete_helpers.py lines 62-80): strip; skip empty lines and comments;
extract the id token; accept it when it has exactly one dot, an
all-alphabetic domain (`domain.isalpha()`) and an object part whose
characters are alphanumeric or underscore (`all(c.isalnum() or c == '_')`,
vacuously true for an empty object part). -/
def lineAccepted (line : String) : Option String :=
  let l := pyStrip line
  if l = "" ∨ strStarts "#" l = true then none
  else
    let eid := pyFirstTok l
    if strContainsCh eid '.' && (pySplitDot eid).length == 2 then
      match pySplitDot eid with
      | [domain, ename] =>
        if pyStrIsAlpha domain && ename.data.all (fun c => pyIsAlnumCh c || c == '_') then
          some eid
        else none
      | _ => none
    else none

/-- Python `content.splitlines()` (newline-separated; a trailing newline
produces no final empty line). -/
def pySplitLines (s : String) : List String :=
  if s = "" then []
  else
    let parts := splitOnCh '\n' s.data
    (if parts.getLast? = some [] then parts.dropLast else parts).map (fun cs => String.mk cs)

/-- The deletion list built from the orphaned-helpers file content
(delete_helpers.py lines 59-80): the accepted id of every line, in order. -/
def delete_parse (content : String) : List String :=
  (pySplitLines content).filterMap lineAccepted

/-- Independent statement of the acceptance condition for the amended claim:
the id splits on `.` into exactly two parts, the domain is non-empty and
all-alphabetic, and the (possibly empty) object part contains only
alphanumerics and underscores. -/
def validDeleteId (eid : String) : Bool :=
  match pySplitDot eid with
  | [domain, ename] =>
    pyStrIsAlpha domain && ename.data.all (fun c => pyIsAlnumCh c || c == '_')
  | _ => false

/-! ## Concrete inputs used by evaluations and witnesses -/

/-- Input for the integration-only scenario: one helper, referenced by exactly
one integration config entry and by nothing else; `state.get` succeeds. -/
def c3Input : AnalysisInput :=
  { helpers := ["input_boolean.heating_override"]
    configRefs := ∅
    configFileMap := []
    templateDeps := []
    integrationRefs := {"input_boolean.heating_override"}
    dashRefs := ∅
    dashFileMap := []
    stateGet := fun _ => Except.ok (some "off") }

/-- Input with two helpers, one of which fails its `state.get` lookup. -/
def c8Input : AnalysisInput :=
  { helpers := ["timer.laundry", "input_boolean.vacation_mode"]
    configRefs := {"input_boolean.vacation_mode"}
    configFileMap := [("input_boolean.vacation_mode", ["configuration.yaml"])]
    templateDeps := []
    integrationRefs := ∅
    dashRefs := ∅
    dashFileMap := []
    stateGet := fun h => if h = "timer.laundry" then Except.error () else Except.ok (some "on") }

/-- Input with a helper referenced by dashboards only. -/
def c2WitnessInput : AnalysisInput :=
  { helpers := ["sensor.water_flow_helper"]
    configRefs := ∅
    configFileMap := []
    templateDeps := []
    integrationRefs := ∅
    dashRefs := {"sensor.water_flow_helper"}
    dashFileMap := [("sensor.water_flow_helper", ["lovelace_main"])]
    stateGet := fun _ => Except.ok (some "3.5") }

/-- A registry with a single always-helper-domain entity owned by an
integration (non-empty `config_entry_id`). -/
def c5Registry : List RegEntry :=
  [{ entity_id := "input_boolean.integration_owned"
     platform := "mobile_app"
     config_entry_id := some "abc123" }]

/-! ## Supporting lemmas -/

theorem setAdd_mem (s : List String) (e x : String) (hx : x ∈ s) : x ∈ setAdd s e := by
  unfold setAdd
  split
  · exact hx
  · exact List.mem_append_left _ hx

theorem mem_setAdd_self (s : List String) (e : String) : e ∈ setAdd s e := by
  unfold setAdd
  split
  · assumption
  · exact List.mem_append_right _ (List.mem_singleton.mpr rfl)

theorem foldl_mem_mono {α : Type} (g : List String → α → List String)
    (hg : ∀ s a x, x ∈ s → x ∈ g s a) (x : String) :
    ∀ (l : List α) (s0 : List String), x ∈ s0 → x ∈ l.foldl g s0
  | [], _, hx => hx
  | a :: t, s0, hx => foldl_mem_mono g hg x t (g s0 a) (hg s0 a x hx)

theorem mem_foldl_cond (p : String → Bool) (h : String) (hp : p h = true) :
    ∀ (l : List String) (s0 : List String), h ∈ l ∨ h ∈ s0 →
      h ∈ l.foldl (fun s e => if p e then setAdd s e else s) s0
  | [], s0, hd => by
    cases hd with
    | inl hl => cases hl
    | inr hr => exact hr
  | a :: t, s0, hd => by
    have step : h ∈ (if p a then setAdd s0 a else s0) ∨ h ∈ t → _ :=
      fun hx => mem_foldl_cond p h hp t (if p a then setAdd s0 a else s0)
        (hx.elim Or.inr Or.inl)
    simp only [List.foldl_cons]
    cases hd with
    | inl hl =>
      cases List.mem_cons.mp hl with
      | inl heq =>
        subst heq
        refine step (Or.inl ?_)
        simp only [hp, if_true]
        exact mem_setAdd_self s0 h
      | inr ht => exact step (Or.inr ht)
    | inr hs =>
      refine step (Or.inl ?_)
      split
      · exact setAdd_mem s0 a h hs
      · exact hs

theorem splitOnCh_ne_nil (sep : Char) : ∀ cs : List Char, splitOnCh sep cs ≠ []
  | [] => by simp [splitOnCh]
  | c :: cs => by
    unfold splitOnCh
    split
    · simp
    · cases h : splitOnCh sep cs <;> simp

theorem mem_of_split_two (sep : Char) :
    ∀ cs : List Char, 2 ≤ (splitOnCh sep cs).length → sep ∈ cs
  | [] => by intro h; simp [splitOnCh] at h
  | c :: cs => by
    intro h2
    by_cases hc : c == sep
    · have hce : c = sep := eq_of_beq hc
      rw [hce]
      exact List.mem_cons_self _ _
    · unfold splitOnCh at h2
      rw [if_neg (by simpa using hc)] at h2
      cases hs : splitOnCh sep cs with
      | nil => exact absurd hs (splitOnCh_ne_nil sep cs)
      | cons h t =>
        rw [hs] at h2
        have hlen : 2 ≤ (splitOnCh sep cs).length := by
          rw [hs]
          simpa using h2
        exact List.mem_cons_of_mem c (mem_of_split_two sep cs hlen)

theorem regStep_mem (id : String) (htrad : tradRegId id = true)
    (acc : List String × List String) (r : RegEntry) :
    (id ∈ (regStep acc r).1 ∨ id ∈ (regStep acc r).2)
      ↔ ((id ∈ acc.1 ∨ id ∈ acc.2)
          ∨ (r.entity_id = id ∧ pyTruthy r.config_entry_id = false)) := by
  by_cases he : r.entity_id = id
  · have htrad2 : tradRegId r.entity_id = true := by rw [he]; exact htrad
    by_cases ht : pyTruthy r.config_entry_id = true
    · unfold regStep
      simp [htrad2, htrad, ht, he]
    · have ht2 : pyTruthy r.config_entry_id = false := by
        cases hb : pyTruthy r.config_entry_id
        · rfl
        · exact absurd hb ht
      unfold regStep
      simp [htrad2, htrad, ht2, he, List.mem_append]
  · have he2 : ¬(id = r.entity_id) := fun hh => he hh.symm
    unfold regStep
    split_ifs <;> simp [List.mem_append, he, he2]

theorem regFold_mem (id : String) (htrad : tradRegId id = true) :
    ∀ (recs : List RegEntry) (acc : List String × List String),
      (id ∈ (recs.foldl regStep acc).1 ∨ id ∈ (recs.foldl regStep acc).2)
        ↔ ((id ∈ acc.1 ∨ id ∈ acc.2)
            ∨ ∃ r ∈ recs, r.entity_id = id ∧ pyTruthy r.config_entry_id = false)
  | [], acc => by simp
  | r :: rest, acc => by
    simp only [List.foldl_cons]
    rw [regFold_mem id htrad rest (regStep acc r), regStep_mem id htrad acc r]
    simp only [List.mem_cons]
    constructor
    · rintro (((h1 | h2) | h3) | ⟨r2, hr2, hp2⟩)
      · exact Or.inl (Or.inl h1)
      · exact Or.inl (Or.inr h2)
      · exact Or.inr ⟨r, Or.inl rfl, h3⟩
      · exact Or.inr ⟨r2, Or.inr hr2, hp2⟩
    · rintro ((h1 | h2) | ⟨r2, (heq | hmem), hp2⟩)
      · exact Or.inl (Or.inl (Or.inl h1))
      · exact Or.inl (Or.inl (Or.inr h2))
      · exact Or.inl (Or.inr (heq ▸ hp2))
      · exact Or.inr ⟨r2, hmem, hp2⟩

theorem lookup_map_self (l : List String) (f : String → Details) (h : String) :
    List.lookup h (l.map (fun x => (x, f x))) = if h ∈ l then some (f h) else none := by
  induction l with
  | nil => simp [List.lookup]
  | cons a l ih =>
    simp only [List.map_cons, List.lookup]
    by_cases hh : h = a
    · subst hh; simp
    · have hba : (h == a) = false := by simp [hh]
      simp [List.mem_cons, hh, ih, hba]

theorem filter_map_fst (l : List String) (f : String → Details) (c : Category) :
    ((l.map (fun h => (h, f h))).filter (fun p => decide (p.2.category = c))).map Prod.fst
      = l.filter (fun h => decide ((f h).category = c)) := by
  induction l with
  | nil => rfl
  | cons a l ih =>
    simp only [List.map_cons, List.filter_cons]
    by_cases hc : (f a).category = c
    · simp [hc, ih]
    · simp [hc, ih]

theorem length_four_way (l : List String) (g : String → Category) :
    (l.filter (fun h => decide (g h = Category.actively_used))).length
      + (l.filter (fun h => decide (g h = Category.dashboard_only))).length
      + (l.filter (fun h => decide (g h = Category.orphaned))).length
      + (l.filter (fun h => decide (g h = Category.error))).length = l.length := by
  induction l with
  | nil => rfl
  | cons a l ih =>
    rcases hc : g a <;> simp [List.filter_cons, hc] <;> omega

theorem count_filter_decide (l : List String) (p : String → Bool) (h : String) :
    (l.filter p).count h = if p h then l.count h else 0 := by
  induction l with
  | nil => simp
  | cons a l ih =>
    by_cases ha : p a
    · by_cases hh : a = h
      · subst hh; simp [List.filter_cons, ha, List.count_cons, ih]
      · simp [List.filter_cons, ha, List.count_cons, ih, hh]
    · by_cases hh : a = h
      · subst hh; simp [List.filter_cons, ha, List.count_cons, ih]
      · simp [List.filter_cons, ha, List.count_cons, ih, hh]

/-! ## Claim theorems: reconciler -/

/-- Claim C1: for every helper universe and every set of reference edges, the
per-helper categorisation of one analysis run assigns each helper exactly one
of the four categories `actively_used`, `dashboard_only`, `orphaned`, `error`,
and the four category lists' sizes sum to the total helper count. -/
theorem c1_reconciler_partition (inp : AnalysisInput) (hnd : inp.helpers.Nodup) :
    (categoryList inp Category.actively_used).length
        + (categoryList inp Category.dashboard_only).length
        + (categoryList inp Category.orphaned).length
        + (categoryList inp Category.error).length = inp.helpers.length
    ∧ ∀ h ∈ inp.helpers,
        (categoryList inp Category.actively_used).count h
          + (categoryList inp Category.dashboard_only).count h
          + (categoryList inp Category.orphaned).count h
          + (categoryList inp Category.error).count h = 1 := by
  have hcl : ∀ c, categoryList inp c
      = inp.helpers.filter (fun h => decide (categoryOf inp h = c)) := by
    intro c
    unfold categoryList helperDetails categoryOf
    exact filter_map_fst inp.helpers (detailsOf inp) c
  constructor
  · rw [hcl, hcl, hcl, hcl]
    exact length_four_way inp.helpers (categoryOf inp)
  · intro h hm
    have hone : inp.helpers.count h = 1 := List.count_eq_one_of_mem hnd hm
    rw [hcl, hcl, hcl, hcl]
    rw [count_filter_decide, count_filter_decide, count_filter_decide, count_filter_decide]
    rcases hc : categoryOf inp h <;> simp [hc, hone]

/-- Witness for C1 at a concrete input. -/
theorem c1_reconciler_partition_witness :
    (categoryList c3Input Category.actively_used).length
        + (categoryList c3Input Category.dashboard_only).length
        + (categoryList c3Input Category.orphaned).length
        + (categoryList c3Input Category.error).length = c3Input.helpers.length :=
  (c1_reconciler_partition c3Input (by decide)).1

/-- Claim C3 (evaluation at the failing input): a helper referenced by exactly
one integration config-entry source — and by no config file, template or
dashboard — is categorised `orphaned` by the run, even though the run itself
records it as referenced (`referenced = true`); the claim (and the spec) say
it must be `actively_used`. -/
theorem c3_integration_only_orphaned_eval :
    categoryOf c3Input "input_boolean.heating_override" = Category.orphaned
      ∧ (detailsOf c3Input "input_boolean.heating_override").referenced = true := by
  constructor <;> rfl

/-- Claim C8: a helper whose live state lookup raises during the
categorisation loop is assigned the distinct `error` pseudo-category, still
appears in the output mapping with its domain recorded, and the run continues:
every helper of the universe has an entry in the mapping. -/
theorem c8_error_category_reported (inp : AnalysisInput) (h : String)
    (hm : h ∈ inp.helpers) (herr : inp.stateGet h = Except.error ()) :
    (∃ d, List.lookup h (helperDetails inp) = some d
        ∧ d.category = Category.error ∧ d.domain = pyDomain h)
      ∧ ∀ h2 ∈ inp.helpers, ∃ d2, List.lookup h2 (helperDetails inp) = some d2 := by
  constructor
  · refine ⟨detailsOf inp h, ?_, ?_, ?_⟩
    · unfold helperDetails
      rw [lookup_map_self]
      simp [hm]
    · unfold detailsOf
      rw [herr]
    · unfold detailsOf
      rw [herr]
  · intro h2 hm2
    refine ⟨detailsOf inp h2, ?_⟩
    unfold helperDetails
    rw [lookup_map_self]
    simp [hm2]

/-- Witness for C8 at a concrete input. -/
theorem c8_error_category_reported_witness :
    ∃ d, List.lookup "timer.laundry" (helperDetails c8Input) = some d
        ∧ d.category = Category.error ∧ d.domain = pyDomain "timer.laundry" :=
  (c8_error_category_reported c8Input "timer.laundry" (by decide) rfl).1

/-- Claim C9: for a fixed set of inputs, the classification mapping is a pure
function of those inputs; in particular, two runs that enumerate the same
helper universe in different orders (Python set iteration order is the only
enumeration freedom) give every helper an identical classification entry. -/
theorem c9_rerun_identical (inp : AnalysisInput) (l2 : List String)
    (hperm : l2.Perm inp.helpers) (h : String) :
    List.lookup h (helperDetails { inp with helpers := l2 })
      = List.lookup h (helperDetails inp) := by
  have hd : detailsOf { inp with helpers := l2 } = detailsOf inp := rfl
  unfold helperDetails
  simp only [hd]
  rw [lookup_map_self, lookup_map_self]
  by_cases hm : h ∈ inp.helpers
  · simp [hm, hperm.mem_iff.mpr hm]
  · have h2 : h ∉ l2 := fun hx => hm (hperm.mem_iff.mp hx)
    simp [hm, h2]

/-- Witness for C9 at a concrete input. -/
theorem c9_rerun_identical_witness :
    List.lookup "timer.laundry"
        (helperDetails { c8Input with helpers := ["input_boolean.vacation_mode", "timer.laundry"] })
      = List.lookup "timer.laundry" (helperDetails c8Input) :=
  c9_rerun_identical c8Input ["input_boolean.vacation_mode", "timer.laundry"]
    (by decide) "timer.laundry"

/-- Claim C2 (amended): a helper whose recorded reference sources are
exclusively dashboard records — non-empty `dashboards` list, empty
`config_files` and `templates` lists — and whose state lookup succeeds is
classified `dashboard_only` and never `actively_used`.  (The original claim's
"regardless of how the dashboard is stored" fails: YAML dashboard files at the
config-scanned locations are also recorded as config-file sources, see the
counterexample.) -/
theorem c2_dashboard_only_downgrade_amended (inp : AnalysisInput) (h : String)
    (st : Option String) (hok : inp.stateGet h = Except.ok st)
    (hdash : dashFilesOf inp h ≠ [])
    (hcfg : cfgFilesOf inp h = [])
    (htmpl : tmplFilesOf inp h = []) :
    categoryOf inp h = Category.dashboard_only
      ∧ categoryOf inp h ≠ Category.actively_used := by
  have hdc : dashCountOf inp h = 1 := by
    unfold dashFilesOf at hdash
    unfold dashCountOf
    by_cases hcond : inp.dashRefs ≠ ∅ ∧ h ∈ inp.dashRefs
    · simp [hcond]
    · simp [hcond] at hdash
  have hcat : categoryOf inp h = Category.dashboard_only := by
    unfold categoryOf detailsOf
    rw [hok]
    show categoryFromSources (referenceSources inp h) = Category.dashboard_only
    unfold categoryFromSources referenceSources
    simp only [htmpl, hcfg, hdc]
    have htot : cfgCountOf inp h + ([] : List String).length + 1 > 0 := by omega
    simp [hdash, htot]
  exact ⟨hcat, by rw [hcat]; intro hcontra; cases hcontra⟩

/-- Witness for the amended C2 at a concrete input. -/
theorem c2_dashboard_only_downgrade_witness :
    categoryOf c2WitnessInput "sensor.water_flow_helper" = Category.dashboard_only
      ∧ categoryOf c2WitnessInput "sensor.water_flow_helper" ≠ Category.actively_used :=
  c2_dashboard_only_downgrade_amended c2WitnessInput "sensor.water_flow_helper"
    (some "3.5") rfl (by decide) (by decide) (by decide)

theorem c2Env_active_for_any_ayc (ayc : String → List String) :
    categoryOf (runInput ayc c2Env) "input_boolean.test_dash"
      = Category.actively_used := by
  have h1 : (runInput ayc c2Env).stateGet "input_boolean.test_dash"
      = Except.ok (some "off") := rfl
  have htmpl : tmplFilesOf (runInput ayc c2Env) "input_boolean.test_dash"
      = ["File: ui-lovelace.yaml"] := by rfl
  unfold categoryOf detailsOf
  rw [h1]
  show categoryFromSources (referenceSources (runInput ayc c2Env) "input_boolean.test_dash")
    = Category.actively_used
  unfold categoryFromSources referenceSources
  simp only [htmpl]
  split
  · split
    · rename_i hcond
      exact absurd hcond.2.2 (by simp)
    · rfl
  · rename_i htot
    refine absurd ?_ htot
    have hlen : (["File: ui-lovelace.yaml"] : List String).length = 1 := rfl
    omega

/-- Claim C2 (counterexample): the claim fails "regardless of how the
dashboard is stored".  Here the ONLY source artifact in the environment is
the YAML dashboard file `/config/ui-lovelace.yaml`, whose card references
the single helper; the run itself records the helper as dashboard-referenced;
yet the classification is `actively_used`, not `dashboard_only`, because the
same YAML dashboard file is also scanned as a config file (lines 879-885 and
1196-1205) and as a template source (line 249), so the helper acquires
config-file and template reference records.  (The category is proved
`actively_used` for every stand-in for `analyze_yaml_content`, via
`c2Env_active_for_any_ayc`.) -/
theorem c2_yaml_dashboard_counterexample :
    ("input_boolean.test_dash" ∈ (runInput extractTmplStrList c2Env).dashRefs
        ∧ (runInput extractTmplStrList c2Env).helpers = ["input_boolean.test_dash"]
        ∧ c2Env.fs = [("/config/ui-lovelace.yaml", c2Content)])
      ∧ categoryOf (runInput extractTmplStrList c2Env) "input_boolean.test_dash"
          = Category.actively_used := by
  exact ⟨⟨by decide, by decide, rfl⟩, c2Env_active_for_any_ayc extractTmplStrList⟩

/-- Claim C7 (counterexample): extraction over a text concatenated with
itself is not the same as extraction over the text once.  Duplication splices
identifiers at the seam: `sensor.x` twice in a row scans as the single
identifier `sensor.xsensor`, so the result sets differ. -/
theorem c7_concat_counterexample :
    extract_template_dependencies ("sensor.x" ++ "sensor.x")
      ≠ extract_template_dependencies "sensor.x" := by decide

/-- Claim C7 (amended): extraction is repeatable — the same text always
yields the same set — and deduplicating across repeated sources: extracting
the same text twice and taking the union adds nothing.  Running once on the
concatenation `text + text` is NOT equivalent in general (see the
counterexample): word-boundary patterns can match across the seam. -/
theorem c7_extract_repeatable_amended (t : String) :
    extract_template_dependencies t = extract_template_dependencies t
      ∧ extract_template_dependencies t ∪ extract_template_dependencies t
          = extract_template_dependencies t :=
  ⟨rfl, Finset.union_self _⟩

/-- Claim C4 (counterexample): the config-file string extractor
`extract_entities_from_template_string` applies no helper-domain allow-list:
the id `foo.bar`, whose domain `foo` is not in the allow-list, appears in its
result. -/
theorem c4_config_extractor_no_allowlist_counterexample :
    "foo.bar" ∈ extract_entities_from_template_string "entity_id: foo.bar"
      ∧ isHelperDomId "foo.bar" = false := by decide

/-- Claim C4 (amended): the template-dependency extractor and the dashboard
extractor filter every match through the helper-domain allow-list, and
`sensor.kitchen_temp` is extracted when present; but the config-file string
extractor `extract_entities_from_template_string` performs no such filtering
(see the counterexample). -/
theorem c4_allowlist_amended :
    (∀ t e, e ∈ extract_template_dependencies t →
        ∃ d ∈ helper_domains, strStarts (d ++ ".") e = true)
      ∧ (∀ t e, e ∈ extract_dashboard_entities t →
          ∃ d ∈ helper_domains, strStarts (d ++ ".") e = true)
      ∧ "sensor.kitchen_temp"
          ∈ extract_template_dependencies "states(\x27sensor.kitchen_temp\x27)" := by
  refine ⟨?_, ?_, by decide⟩
  · intro t e he
    unfold extract_template_dependencies extractTmplDepList at he
    rw [List.mem_toFinset] at he
    split at he
    · cases he
    · rw [List.mem_dedup, List.mem_filter] at he
      have := he.2
      unfold isHelperDomId at this
      rw [List.any_eq_true] at this
      obtain ⟨d, hd, hp⟩ := this
      exact ⟨d, hd, hp⟩
  · intro t e he
    unfold extract_dashboard_entities extractDashList at he
    rw [List.mem_toFinset] at he
    split at he
    · cases he
    · rw [List.mem_dedup, List.mem_filter] at he
      have := he.2
      unfold isHelperDomId at this
      rw [List.any_eq_true] at this
      obtain ⟨d, hd, hp⟩ := this
      exact ⟨d, hd, hp⟩

/-- Witness for the amended C4 at a concrete input. -/
theorem c4_allowlist_witness :
    ∃ d ∈ helper_domains, strStarts (d ++ ".") "sensor.kitchen_temp" = true :=
  c4_allowlist_amended.1 "states(\x27sensor.kitchen_temp\x27)" "sensor.kitchen_temp"
    (by decide)

/-- Claim C5 (counterexample): an entity with an always-helper domain and a
non-empty `config_entry_id` marker is NOT excluded from the helper universe.
The registry scan skips it, but the live-snapshot loop
(analyze_helpers.py lines 1096-1101) adds every live entity with an
always-helper prefix unconditionally, so the entity enters the universe
anyway — the claim's "holds for the whole helper-universe construction"
fails. -/
theorem c5_marked_entity_in_universe_counterexample :
    pyTruthy (some "abc123") = true
      ∧ "input_boolean.integration_owned" ∉ examine_entity_registry c5Registry
      ∧ "input_boolean.integration_owned"
          ∈ helpersSet ["input_boolean.integration_owned"]
              (examine_entity_registry c5Registry) (fun _ => false) := by
  refine ⟨rfl, by decide, by decide⟩

/-- Claim C5 (amended): the Rule-1 exception holds for the registry-derived
part of the construction only.  (a) An id with a registry always-helper
prefix (`input_`, `counter.`, `timer.`) is in `examine_entity_registry`'s
output exactly when some registry record carries it without a truthy
`config_entry_id`.  (b) The live-snapshot part of the universe construction
adds every live entity with an always-helper prefix (`input_`, `counter.`,
`timer.`, `variable.`) unconditionally — regardless of any marker. -/
theorem c5_rule1_registry_amended :
    (∀ (recs : List RegEntry) (id : String), tradRegId id = true →
        (id ∈ examine_entity_registry recs
          ↔ ∃ r ∈ recs, r.entity_id = id ∧ pyTruthy r.config_entry_id = false))
      ∧ ∀ (live reg : List String) (tmpl : String → Bool) (h : String),
          h ∈ live → tradLiveId h = true → h ∈ helpersSet live reg tmpl := by
  constructor
  · intro recs id htrad
    unfold examine_entity_registry
    rw [List.mem_append]
    rw [regFold_mem id htrad recs ([], [])]
    simp
  · intro live reg tmpl h hm htrad
    unfold helpersSet
    have h1 : h ∈ live.foldl (fun s e => if tradLiveId e then setAdd s e else s) [] :=
      mem_foldl_cond tradLiveId h htrad live [] (Or.inl hm)
    have h2 : h ∈ reg.foldl (fun s e => if e ∈ live then setAdd s e else s)
        (live.foldl (fun s e => if tradLiveId e then setAdd s e else s) []) := by
      refine foldl_mem_mono _ ?_ h reg _ h1
      intro s a x hx
      split
      · exact setAdd_mem s a x hx
      · exact hx
    refine foldl_mem_mono _ ?_ h live _ h2
    intro s a x hx
    split
    · exact setAdd_mem s a x hx
    · exact hx

/-- Witness for the amended C5 at a concrete input: an unmarked `timer.`
record is reported by the registry scan. -/
theorem c5_rule1_registry_witness :
    "timer.laundry" ∈ examine_entity_registry [⟨"timer.laundry", "", none⟩] :=
  (c5_rule1_registry_amended.1 [⟨"timer.laundry", "", none⟩] "timer.laundry"
    (by decide)).mpr ⟨⟨"timer.laundry", "", none⟩, by decide, rfl, rfl⟩

/-- Claim C6 (evaluation at the failing input): a sensor-domain entity whose
attribute lookup succeeds and whose attributes declare `platform` (or
`integration`) equal to `template` is classified NotHelper by
`is_template_or_helper_entity`, not Helper.  The secondary acceptance path
of lines 427-432 is unreachable on a successful lookup — it sits inside the
`except:` handler of the `state.getattr` call — and the fallback block
(lines 462-491) treats the `platform` key as an integration indicator and
rejects the `integration` key as non-basic. -/
theorem c6_template_marker_eval :
    is_template_or_helper_entity "sensor.my_template_helper"
        (Except.ok [("platform", "template")]) = false
      ∧ is_template_or_helper_entity "sensor.my_template_helper"
          (Except.ok [("integration", "template")]) = false := by
  exact ⟨rfl, rfl⟩

/-- Claim C10 (counterexample): the line `x.` is added to the deletion list
although its object part (after the dot) is empty, contradicting the claim's
"exactly two non-empty parts": `all(...)` over an empty object part is
vacuously true in the code. -/
theorem c10_empty_object_accepted_counterexample :
    delete_parse "x." = ["x."] ∧ pySplitDot "x." = ["x", ""] := by
  exact ⟨rfl, rfl⟩

/-- Claim C10 (amended): a line's id token is added iff the token splits on
`.` into exactly two parts where the domain is non-empty and purely
alphabetic and the — possibly empty — object part consists of alphanumerics
and underscores; consequently every parsed id has a purely alphabetic domain
and no id with an underscore in its domain (such as
`input_boolean.vacation_mode`) is ever added. -/
theorem c10_line_rule_amended :
    (∀ line : String,
        lineAccepted line
          = (if pyStrip line = "" ∨ strStarts "#" (pyStrip line) = true then none
             else if validDeleteId (pyFirstTok (pyStrip line)) then
               some (pyFirstTok (pyStrip line))
             else none))
      ∧ (∀ (content e : String), e ∈ delete_parse content →
          ∃ d o, pySplitDot e = [d, o] ∧ pyStrIsAlpha d = true)
      ∧ ∀ content : String, "input_boolean.vacation_mode" ∉ delete_parse content := by
  have hline : ∀ line : String,
      lineAccepted line
        = (if pyStrip line = "" ∨ strStarts "#" (pyStrip line) = true then none
           else if validDeleteId (pyFirstTok (pyStrip line)) then
             some (pyFirstTok (pyStrip line))
           else none) := by
    intro line
    unfold lineAccepted
    by_cases hskip : pyStrip line = "" ∨ strStarts "#" (pyStrip line) = true
    · rw [if_pos hskip, if_pos hskip]
    · rw [if_neg hskip, if_neg hskip]
      rcases hsp : pySplitDot (pyFirstTok (pyStrip line)) with _ | ⟨d, tl⟩
      · exfalso
        have hne := splitOnCh_ne_nil '.' (pyFirstTok (pyStrip line)).data
        unfold pySplitDot at hsp
        exact hne (List.map_eq_nil_iff.mp hsp)
      · rcases tl with _ | ⟨o, tl2⟩
        · simp [hsp, validDeleteId]
        · rcases tl2 with _ | ⟨x, tl3⟩
          · have hlen2 : 2 ≤ (splitOnCh '.' (pyFirstTok (pyStrip line)).data).length := by
              have hl2 : (pySplitDot (pyFirstTok (pyStrip line))).length = 2 := by
                rw [hsp]; rfl
              unfold pySplitDot at hl2
              rw [List.length_map] at hl2
              omega
            have hcont : strContainsCh (pyFirstTok (pyStrip line)) '.' = true := by
              unfold strContainsCh
              exact List.elem_iff.mpr (mem_of_split_two '.' _ hlen2)
            simp [hsp, validDeleteId, hcont]
          · simp [hsp, validDeleteId]
  have hvalid : ∀ (content e : String), e ∈ delete_parse content →
      ∃ d o, pySplitDot e = [d, o] ∧ pyStrIsAlpha d = true := by
    intro content e hmem
    unfold delete_parse at hmem
    obtain ⟨line, _, hl⟩ := List.mem_filterMap.mp hmem
    rw [hline line] at hl
    by_cases hskip : pyStrip line = "" ∨ strStarts "#" (pyStrip line) = true
    · rw [if_pos hskip] at hl; cases hl
    · rw [if_neg hskip] at hl
      by_cases hv : validDeleteId (pyFirstTok (pyStrip line)) = true
      · rw [if_pos hv] at hl
        have he : e = pyFirstTok (pyStrip line) := (Option.some_inj.mp hl).symm
        rw [← he] at hv
        unfold validDeleteId at hv
        rcases hsp : pySplitDot e with _ | ⟨d, _ | ⟨o, _ | _⟩⟩
        all_goals rw [hsp] at hv
        · simp at hv
        · simp at hv
        · simp only [Bool.and_eq_true] at hv
          exact ⟨d, o, rfl, hv.1⟩
        · simp at hv
      · rw [if_neg (by simpa using hv)] at hl; cases hl
  refine ⟨hline, hvalid, ?_⟩
  intro content hmem
  obtain ⟨d, o, hsp, hal⟩ := hvalid content _ hmem
  have hval : pySplitDot "input_boolean.vacation_mode"
      = ["input_boolean", "vacation_mode"] := by rfl
  rw [hval] at hsp
  injection hsp with h1 hrest
  rw [← h1] at hal
  exact absurd hal (by decide)

/-- Witness for the amended C10 at a concrete input. -/
theorem c10_line_rule_witness :
    ∃ d o, pySplitDot "timer.x" = [d, o] ∧ pyStrIsAlpha d = true :=
  c10_line_rule_amended.2.1 "timer.x" "timer.x" (by decide)
